import Mathlib

/-!
Verification of the quizplay_robot core (group quiz sessions, answer routing,
scoring) against its natural-language specification.  Times are modelled as
rationals, machine integers as `Int`/`Nat` (no overflow is reachable in the
modelled arithmetic), dictionaries as association lists, and the Telegram /
MongoDB side effects as explicit state passing over a `BotState` record.
-/

namespace QuizPlay

/-! ## Scoring (src/utils/helpers.py, calculate_score) -/

/-- The speed-bonus ladder of `calculate_score`, evaluated highest threshold
first, as in the source's if/elif chain over `time_remaining_pct`. -/
def speedBonus (pct : ℚ) : ℤ :=
  if pct ≥ 90 then 10
  else if pct ≥ 80 then 8
  else if pct ≥ 60 then 5
  else if pct ≥ 50 then 3
  else 0

/-- `calculate_score(is_correct, response_time, max_time=20, extra_points=True)`
from src/utils/helpers.py.  Note the source does NOT clamp `response_time`:
`time_remaining_pct = ((max_time - response_time) / max_time) * 100`. -/
def calculate_score (is_correct : Bool) (response_time : ℚ)
    (max_time : ℤ) (extra_points : Bool) : ℤ :=
  if is_correct = false then 0
  else
    let base_points : ℤ := 5
    if extra_points = false then base_points
    else
      let time_remaining_pct : ℚ := (((max_time : ℚ) - response_time) / (max_time : ℚ)) * 100
      base_points + speedBonus time_remaining_pct

/-- The spec's clamp: `clamp(response_time, 0, time_limit)`. -/
def clamp (x lo hi : ℚ) : ℚ := max lo (min x hi)

/-- The spec's step function, highest threshold first
(≥90→10, ≥80→8, ≥60→5, ≥50→3, else→0). -/
def specStep (pct : ℚ) : ℤ :=
  if pct ≥ 90 then 10
  else if pct ≥ 80 then 8
  else if pct ≥ 60 then 5
  else if pct ≥ 50 then 3
  else 0

/-- The spec's reference scoring value (§4.5): 0 when not correct; 5 when
correct with bonus disabled; else `5 + step(remaining_pct)` with
`remaining_pct = (time_limit - clamp(response_time, 0, time_limit)) / time_limit * 100`.
Written from the spec's words, to be compared with `calculate_score`. -/
def specScore (correct : Bool) (response_time : ℚ)
    (time_limit : ℤ) (speed_bonus_enabled : Bool) : ℤ :=
  if correct = false then 0
  else if speed_bonus_enabled = false then 5
  else
    let remaining_pct : ℚ :=
      (((time_limit : ℚ) - clamp response_time 0 (time_limit : ℚ)) / (time_limit : ℚ)) * 100
    5 + specStep remaining_pct

theorem specStep_eq_speedBonus (p : ℚ) : specStep p = speedBonus p := rfl

theorem speedBonus_of_ge_90 {p : ℚ} (h : 90 ≤ p) : speedBonus p = 10 := by
  simp [speedBonus, h]

theorem speedBonus_of_lt_50 {p : ℚ} (h : p < 50) : speedBonus p = 0 := by
  have h90 : ¬ (90 : ℚ) ≤ p := by linarith
  have h80 : ¬ (80 : ℚ) ≤ p := by linarith
  have h60 : ¬ (60 : ℚ) ≤ p := by linarith
  have h50 : ¬ (50 : ℚ) ≤ p := by linarith
  simp [speedBonus, h90, h80, h60, h50]

/-- C1 -- For every boolean `correct`, rational `response_time`, integer
`time_limit > 0` and boolean `speed_bonus_enabled`, the source's
`calculate_score` returns exactly the spec's reference value (with the
clamp), and in particular score(True,0,20,True) = 15,
score(True,20,20,True) = 5 and score(True,4,20,False) = 5. -/
theorem C1_calculate_score_matches_spec
    (correct : Bool) (response_time : ℚ) (time_limit : ℤ)
    (speed_bonus_enabled : Bool) (hpos : 0 < time_limit) :
    calculate_score correct response_time time_limit speed_bonus_enabled
      = specScore correct response_time time_limit speed_bonus_enabled ∧
    calculate_score true 0 20 true = 15 ∧
    calculate_score true 20 20 true = 5 ∧
    calculate_score true 4 20 false = 5 := by
  refine ⟨?_, by norm_num [calculate_score, speedBonus],
    by norm_num [calculate_score, speedBonus],
    by norm_num [calculate_score, speedBonus]⟩
  cases correct with
  | false => simp [calculate_score, specScore]
  | true =>
    cases speed_bonus_enabled with
    | false => simp [calculate_score, specScore]
    | true =>
      simp only [calculate_score, specScore, specStep_eq_speedBonus]
      have hT : (0 : ℚ) < (time_limit : ℚ) := by exact_mod_cast hpos
      set T : ℚ := (time_limit : ℚ) with hTdef
      by_cases h0 : 0 ≤ response_time
      · by_cases hle : response_time ≤ T
        · have hcl : clamp response_time 0 T = response_time := by
            simp [clamp, min_eq_left hle, max_eq_right h0]
          simp [hcl]
        · push_neg at hle
          have hcl : clamp response_time 0 T = T := by
            simp [clamp, min_eq_right (le_of_lt hle), max_eq_right (le_of_lt hT)]
          rw [hcl]
          have hz : ((T - T) / T) * 100 = 0 := by
            rw [sub_self, zero_div, zero_mul]
          rw [hz]
          have hneg : ((T - response_time) / T) * 100 < 50 := by
            have hdiv : (T - response_time) / T < 0 :=
              div_neg_of_neg_of_pos (by linarith) hT
            nlinarith
          rw [speedBonus_of_lt_50 hneg, speedBonus_of_lt_50 (by norm_num : (0:ℚ) < 50)]
      · push_neg at h0
        have hcl : clamp response_time 0 T = 0 := by
          have hmin : min response_time T = response_time :=
            min_eq_left (by linarith)
          simp [clamp, hmin, max_eq_left (le_of_lt h0)]
        rw [hcl]
        have hone : ((T - 0) / T) * 100 = 100 := by
          rw [sub_zero, div_self (ne_of_gt hT)]; norm_num
        rw [hone]
        have hge : 90 ≤ ((T - response_time) / T) * 100 := by
          have h1 : (1 : ℚ) ≤ (T - response_time) / T :=
            (le_div_iff₀ hT).mpr (by linarith)
          nlinarith
        rw [speedBonus_of_ge_90 hge, speedBonus_of_ge_90 (by norm_num : (90:ℚ) ≤ 100)]

theorem C1_calculate_score_matches_spec_witness :
    (0 : ℤ) < 20 ∧ calculate_score true 3 20 true = specScore true 3 20 true :=
  ⟨by decide, (C1_calculate_score_matches_spec true 3 20 true (by decide)).1⟩

/-- C10 -- For every input with `max_time > 0`, `calculate_score` returns a
value in {0, 5, 8, 10, 13, 15}, and the result is 0 exactly when
`is_correct` is false. -/
theorem C10_score_range
    (is_correct : Bool) (response_time : ℚ) (max_time : ℤ)
    (extra_points : Bool) (hpos : 0 < max_time) :
    (calculate_score is_correct response_time max_time extra_points = 0 ∨
     calculate_score is_correct response_time max_time extra_points = 5 ∨
     calculate_score is_correct response_time max_time extra_points = 8 ∨
     calculate_score is_correct response_time max_time extra_points = 10 ∨
     calculate_score is_correct response_time max_time extra_points = 13 ∨
     calculate_score is_correct response_time max_time extra_points = 15) ∧
    (calculate_score is_correct response_time max_time extra_points = 0 ↔
     is_correct = false) := by
  cases is_correct with
  | false => simp [calculate_score]
  | true =>
    cases extra_points with
    | false => simp [calculate_score]
    | true =>
      simp only [calculate_score]
      have hb : speedBonus ((((max_time : ℚ) - response_time) / (max_time : ℚ)) * 100) = 10 ∨
          speedBonus ((((max_time : ℚ) - response_time) / (max_time : ℚ)) * 100) = 8 ∨
          speedBonus ((((max_time : ℚ) - response_time) / (max_time : ℚ)) * 100) = 5 ∨
          speedBonus ((((max_time : ℚ) - response_time) / (max_time : ℚ)) * 100) = 3 ∨
          speedBonus ((((max_time : ℚ) - response_time) / (max_time : ℚ)) * 100) = 0 := by
        unfold speedBonus
        split_ifs <;> simp
      rcases hb with hb | hb | hb | hb | hb <;> rw [hb] <;> norm_num

theorem C10_score_range_witness :
    (0 : ℤ) < 20 ∧
    (calculate_score true 10 20 true = 0 ∨
     calculate_score true 10 20 true = 5 ∨
     calculate_score true 10 20 true = 8 ∨
     calculate_score true 10 20 true = 10 ∨
     calculate_score true 10 20 true = 13 ∨
     calculate_score true 10 20 true = 15) :=
  ⟨by decide, (C10_score_range true 10 20 true (by decide)).1⟩

/-! ## Association-list primitives

MongoDB documents keyed by `chat_id` and the in-memory dicts keyed by
`poll_id` are modelled as association lists with unique keys. -/

def alistLookup {β : Type} : List (ℕ × β) → ℕ → Option β
  | [], _ => none
  | (k, v) :: rest, key => if k = key then some v else alistLookup rest key

def alistSet {β : Type} : List (ℕ × β) → ℕ → β → List (ℕ × β)
  | [], key, v => [(key, v)]
  | (k, w) :: rest, key, v =>
      if k = key then (key, v) :: rest else (k, w) :: alistSet rest key v

/-- Remove the first binding of `key` (MongoDB `delete_one` / Python `del`). -/
def alistErase {β : Type} : List (ℕ × β) → ℕ → List (ℕ × β)
  | [], _ => []
  | (k, w) :: rest, key => if k = key then rest else (k, w) :: alistErase rest key

theorem alistLookup_set_self {β : Type} (l : List (ℕ × β)) (k : ℕ) (v : β) :
    alistLookup (alistSet l k v) k = some v := by
  induction l with
  | nil => simp [alistSet, alistLookup]
  | cons hd tl ih =>
    obtain ⟨k', w⟩ := hd
    by_cases h : k' = k
    · simp [alistSet, h, alistLookup]
    · simp [alistSet, h, alistLookup, ih]

theorem alistLookup_of_not_mem_keys {β : Type} {l : List (ℕ × β)} {k : ℕ}
    (h : k ∉ l.map Prod.fst) : alistLookup l k = none := by
  induction l with
  | nil => simp [alistLookup]
  | cons hd tl ih =>
    obtain ⟨k', w⟩ := hd
    simp only [List.map_cons, List.mem_cons] at h
    push_neg at h
    have hne : ¬ k' = k := fun hh => h.1 hh.symm
    simp only [alistLookup, if_neg hne]
    exact ih h.2

theorem alistLookup_erase_self {β : Type} (l : List (ℕ × β)) (k : ℕ)
    (hnd : (l.map Prod.fst).Nodup) :
    alistLookup (alistErase l k) k = none := by
  induction l with
  | nil => simp [alistErase, alistLookup]
  | cons hd tl ih =>
    obtain ⟨k', w⟩ := hd
    simp only [List.map_cons, List.nodup_cons] at hnd
    by_cases h : k' = k
    · subst h
      simp only [alistErase, if_pos rfl]
      exact alistLookup_of_not_mem_keys hnd.1
    · simpa [alistErase, alistLookup, h] using ih hnd.2

/-! ## Data model

`BotState` gathers the mutable state the group-quiz core touches:
the `active_games` MongoDB collection (src/database/models.py), the
module-level `active_polls` dict and `countdown_tasks` dict
(src/handlers/group.py), and the `solo_*` entries of `context.bot_data`
(src/handlers/browse.py, read by the group poll-answer handler). -/

/-- One value of the `players` map of an active game:
`{"username": ..., "score": 0, "correct": 0}`. -/
structure Player where
  username : String
  score : ℤ
  correct : ℤ
deriving DecidableEq, Repr

/-- One `active_games` document (src/database/models.py, create_active_game). -/
structure Game where
  group_id : String
  quiz_id : String
  started_by : ℕ
  players : List (ℕ × Player)
  current_question : ℕ
  current_poll_id : Option ℕ
  scores : List (ℕ × ℤ)
deriving DecidableEq, Repr

/-- One entry of the module-level `active_polls` dict (src/handlers/group.py). -/
structure PollInfo where
  chat_id : ℕ
  question_index : ℕ
  correct_option : ℤ
  start_time : ℚ
  answered_users : List ℕ
  extra_points : Bool
  time_limit : ℤ
deriving DecidableEq, Repr

/-- One `bot_data["solo_<poll_id>"]` entry (src/handlers/browse.py, run_solo_quiz). -/
structure SoloPoll where
  user_id : ℕ
  correct_option : ℤ
  start_time : ℚ
  time_limit : ℤ
  extra_points : Bool
deriving DecidableEq, Repr

/-- One `bot_data["solo_result_<poll_id>"]` entry. -/
structure SoloResult where
  correct : Bool
  points : ℤ
deriving DecidableEq, Repr

/-- The mutable state of the quiz core. -/
structure BotState where
  games : List (ℕ × Game)
  activePolls : List (ℕ × PollInfo)
  soloPolls : List (ℕ × SoloPoll)
  soloResults : List (ℕ × SoloResult)
  countdownTasks : List ℕ
deriving DecidableEq, Repr

/-! ## Database operations (src/database/models.py) -/

def get_active_game (s : BotState) (chat_id : ℕ) : Option Game :=
  alistLookup s.games chat_id

def create_active_game (s : BotState) (chat_id : ℕ)
    (group_id quiz_id : String) (started_by : ℕ) : BotState :=
  let g : Game :=
    { group_id := group_id, quiz_id := quiz_id, started_by := started_by,
      players := [], current_question := 0, current_poll_id := none, scores := [] }
  { s with games := alistSet s.games chat_id g }

def delete_active_game (s : BotState) (chat_id : ℕ) : BotState :=
  { s with games := alistErase s.games chat_id }

/-- `add_player_to_game`: `update_one({"chat_id": chat_id},
{"$set": {"players.<user_id>": {"username": ..., "score": 0, "correct": 0}}})`,
returning `modified_count > 0`: false when no document matches, and also
false when the document is left byte-identical (the player already holds
exactly this record). -/
def add_player_to_game (s : BotState) (chat_id user_id : ℕ)
    (username : String) : BotState × Bool :=
  match alistLookup s.games chat_id with
  | none => (s, false)
  | some g =>
      let newPlayer : Player := { username := username, score := 0, correct := 0 }
      if alistLookup g.players user_id = some newPlayer then (s, false)
      else
        let g2 : Game := { g with players := alistSet g.players user_id newPlayer }
        ({ s with games := alistSet s.games chat_id g2 }, true)

/-- `update_player_score`: `$inc scores.<user_id>` by `points` and, when
`correct`, `$inc players.<user_id>.correct` by 1 (Mongo's `$inc` creates an
absent field at 0 first; an absent player record is created with only the
incremented field, modelled with `""`/0 defaults for the others). -/
def update_player_score (s : BotState) (chat_id user_id : ℕ)
    (points : ℤ) (correct : Bool) : BotState :=
  match alistLookup s.games chat_id with
  | none => s
  | some g =>
      let newScores :=
        alistSet g.scores user_id (((alistLookup g.scores user_id).getD 0) + points)
      let newPlayers :=
        if correct then
          match alistLookup g.players user_id with
          | some p => alistSet g.players user_id { p with correct := p.correct + 1 }
          | none => alistSet g.players user_id { username := "", score := 0, correct := 1 }
        else g.players
      let g2 : Game := { g with players := newPlayers, scores := newScores }
      { s with games := alistSet s.games chat_id g2 }

/-! ## Answer Event Router (src/handlers/group.py, poll_answer_handler) -/

/-- An inbound `poll_answer` update; `received_at` is the value of
`datetime.utcnow()` at handling time. -/
structure AnswerEvent where
  poll_id : ℕ
  user_id : ℕ
  option_ids : List ℕ
  received_at : ℚ
deriving DecidableEq, Repr

/-- `answer.option_ids[0] if answer.option_ids else -1`. -/
def selectedOption (e : AnswerEvent) : ℤ :=
  match e.option_ids with
  | [] => -1
  | o :: _ => (o : ℤ)

/-- The solo branch of `poll_answer_handler` (`solo_<poll_id>` found in
bot_data): verify the user, recompute the score — there is NO duplicate
check here — and overwrite `solo_result_<poll_id>`. -/
def handleSoloAnswer (s : BotState) (e : AnswerEvent) (info : SoloPoll) : BotState :=
  if info.user_id ≠ e.user_id then s
  else
    let response_time := e.received_at - info.start_time
    let is_correct : Bool := selectedOption e = info.correct_option
    let points := calculate_score is_correct response_time info.time_limit info.extra_points
    let res : SoloResult := { correct := is_correct, points := points }
    { s with soloResults := alistSet s.soloResults e.poll_id res }

/-- The group branch of `poll_answer_handler`: duplicate user → silent
return; else mark answered, score, and update the player's score when
points > 0. -/
def handleGroupAnswer (s : BotState) (e : AnswerEvent) (info : PollInfo) : BotState :=
  if e.user_id ∈ info.answered_users then s
  else
    let info2 := { info with answered_users := e.user_id :: info.answered_users }
    let s2 := { s with activePolls := alistSet s.activePolls e.poll_id info2 }
    let response_time := e.received_at - info.start_time
    let is_correct : Bool := selectedOption e = info.correct_option
    let points := calculate_score is_correct response_time info.time_limit info.extra_points
    if 0 < points then
      update_player_score s2 info.chat_id e.user_id points is_correct
    else s2

/-- `poll_answer_handler`: solo branch first, then the group branch;
a poll id in neither registry is discarded silently. -/
def poll_answer_handler (s : BotState) (e : AnswerEvent) : BotState :=
  match alistLookup s.soloPolls e.poll_id with
  | some info => handleSoloAnswer s e info
  | none =>
      match alistLookup s.activePolls e.poll_id with
      | none => s
      | some info => handleGroupAnswer s e info

/-! ## Router lemmas -/

theorem update_player_score_parts (s : BotState) (chat_id user_id : ℕ)
    (points : ℤ) (correct : Bool) :
    (update_player_score s chat_id user_id points correct).activePolls = s.activePolls ∧
    (update_player_score s chat_id user_id points correct).soloPolls = s.soloPolls ∧
    (update_player_score s chat_id user_id points correct).soloResults = s.soloResults ∧
    (update_player_score s chat_id user_id points correct).countdownTasks = s.countdownTasks := by
  unfold update_player_score
  rcases alistLookup s.games chat_id with _ | g <;> simp

/-- The router has either closed this poll or already recorded this user's
answer; in both cases its group branch discards the event. -/
def answeredOrClosed (s : BotState) (p u : ℕ) : Prop :=
  ∀ info : PollInfo, alistLookup s.activePolls p = some info → u ∈ info.answered_users

theorem poll_answer_handler_eq_solo (s : BotState) (e : AnswerEvent)
    (info : SoloPoll) (hsolo : alistLookup s.soloPolls e.poll_id = some info) :
    poll_answer_handler s e = handleSoloAnswer s e info := by
  unfold poll_answer_handler
  rw [hsolo]

theorem poll_answer_handler_eq_unknown (s : BotState) (e : AnswerEvent)
    (hsolo : alistLookup s.soloPolls e.poll_id = none)
    (hgrp : alistLookup s.activePolls e.poll_id = none) :
    poll_answer_handler s e = s := by
  unfold poll_answer_handler
  rw [hsolo, hgrp]

theorem poll_answer_handler_eq_group (s : BotState) (e : AnswerEvent)
    (info : PollInfo) (hsolo : alistLookup s.soloPolls e.poll_id = none)
    (hgrp : alistLookup s.activePolls e.poll_id = some info) :
    poll_answer_handler s e = handleGroupAnswer s e info := by
  unfold poll_answer_handler
  rw [hsolo, hgrp]

theorem handleGroupAnswer_of_mem (s : BotState) (e : AnswerEvent)
    (info : PollInfo) (hmem : e.user_id ∈ info.answered_users) :
    handleGroupAnswer s e info = s := by
  unfold handleGroupAnswer
  rw [if_pos hmem]

theorem handleGroupAnswer_activePolls (s : BotState) (e : AnswerEvent)
    (info : PollInfo) (hmem : e.user_id ∉ info.answered_users) :
    (handleGroupAnswer s e info).activePolls
      = alistSet s.activePolls e.poll_id
          { info with answered_users := e.user_id :: info.answered_users } := by
  unfold handleGroupAnswer
  rw [if_neg hmem]
  dsimp only
  split
  · exact (update_player_score_parts _ _ _ _ _).1
  · rfl

theorem handleGroupAnswer_soloPolls (s : BotState) (e : AnswerEvent)
    (info : PollInfo) :
    (handleGroupAnswer s e info).soloPolls = s.soloPolls := by
  unfold handleGroupAnswer
  split
  · rfl
  · dsimp only
    split
    · exact (update_player_score_parts _ _ _ _ _).2.1
    · rfl

theorem handleSoloAnswer_parts (s : BotState) (e : AnswerEvent)
    (info : SoloPoll) :
    (handleSoloAnswer s e info).games = s.games ∧
    (handleSoloAnswer s e info).activePolls = s.activePolls ∧
    (handleSoloAnswer s e info).soloPolls = s.soloPolls := by
  unfold handleSoloAnswer
  split <;> exact ⟨rfl, rfl, rfl⟩

theorem poll_answer_handler_noop (s : BotState) (e : AnswerEvent)
    (hsolo : alistLookup s.soloPolls e.poll_id = none)
    (hans : answeredOrClosed s e.poll_id e.user_id) :
    poll_answer_handler s e = s := by
  rcases h : alistLookup s.activePolls e.poll_id with _ | info
  · exact poll_answer_handler_eq_unknown s e hsolo h
  · rw [poll_answer_handler_eq_group s e info hsolo h]
    exact handleGroupAnswer_of_mem s e info (hans info h)

theorem poll_answer_handler_soloPolls (s : BotState) (e : AnswerEvent) :
    (poll_answer_handler s e).soloPolls = s.soloPolls := by
  rcases h1 : alistLookup s.soloPolls e.poll_id with _ | sp
  · rcases h2 : alistLookup s.activePolls e.poll_id with _ | info
    · rw [poll_answer_handler_eq_unknown s e h1 h2]
    · rw [poll_answer_handler_eq_group s e info h1 h2]
      exact handleGroupAnswer_soloPolls s e info
  · rw [poll_answer_handler_eq_solo s e sp h1]
    exact (handleSoloAnswer_parts s e sp).2.2

theorem poll_answer_handler_answered (s : BotState) (e : AnswerEvent)
    (hsolo : alistLookup s.soloPolls e.poll_id = none) :
    answeredOrClosed (poll_answer_handler s e) e.poll_id e.user_id := by
  rcases h : alistLookup s.activePolls e.poll_id with _ | info
  · rw [poll_answer_handler_eq_unknown s e hsolo h]
    intro info' hinfo'
    rw [h] at hinfo'
    cases hinfo'
  · rw [poll_answer_handler_eq_group s e info hsolo h]
    by_cases hmem : e.user_id ∈ info.answered_users
    · rw [handleGroupAnswer_of_mem s e info hmem]
      intro info' hinfo'
      rw [h] at hinfo'
      injection hinfo' with hx
      rw [← hx]
      exact hmem
    · intro info' hinfo'
      rw [handleGroupAnswer_activePolls s e info hmem, alistLookup_set_self] at hinfo'
      injection hinfo' with hx
      rw [← hx]
      exact List.mem_cons_self _ _

theorem foldl_handler_noop (p u : ℕ) :
    ∀ (es : List AnswerEvent) (s : BotState),
      alistLookup s.soloPolls p = none →
      answeredOrClosed s p u →
      (∀ e ∈ es, e.poll_id = p ∧ e.user_id = u) →
      es.foldl poll_answer_handler s = s := by
  intro es
  induction es with
  | nil => intro s _ _ _; rfl
  | cons e rest ih =>
    intro s hsolo hans hall
    have he := hall e (by simp)
    have hnoop : poll_answer_handler s e = s := by
      apply poll_answer_handler_noop
      · rw [he.1]; exact hsolo
      · rw [he.1, he.2]; exact hans
    rw [List.foldl_cons, hnoop]
    exact ih s hsolo hans fun e' hm => hall e' (List.mem_cons_of_mem _ hm)

/-- C2 (amended) -- For a poll id that is not registered as a solo poll
(a group poll or an unknown id), among any sequence of answer events
carrying the same (poll_id, user_id), only the first event can change any
state: processing the remaining events leaves the state exactly as it was
after the first.  A solo-poll event never changes any session's players
(cumulative score / correct count) or the group poll registry; it only
re-stores the stashed solo result. -/
theorem C2_duplicate_events_group_only_first
    (s : BotState) (e1 : AnswerEvent) (es : List AnswerEvent)
    (hsolo : alistLookup s.soloPolls e1.poll_id = none)
    (hes : ∀ e ∈ es, e.poll_id = e1.poll_id ∧ e.user_id = e1.user_id) :
    es.foldl poll_answer_handler (poll_answer_handler s e1) = poll_answer_handler s e1 ∧
    (∀ (s' : BotState) (e' : AnswerEvent) (info : SoloPoll),
        alistLookup s'.soloPolls e'.poll_id = some info →
        (poll_answer_handler s' e').games = s'.games ∧
        (poll_answer_handler s' e').activePolls = s'.activePolls) := by
  constructor
  · apply foldl_handler_noop e1.poll_id e1.user_id es (poll_answer_handler s e1)
    · rw [poll_answer_handler_soloPolls]; exact hsolo
    · exact poll_answer_handler_answered s e1 hsolo
    · exact hes
  · intro s' e' info hinfo
    rw [poll_answer_handler_eq_solo s' e' info hinfo]
    exact ⟨(handleSoloAnswer_parts s' e' info).1, (handleSoloAnswer_parts s' e' info).2.1⟩

theorem C2_duplicate_events_group_only_first_witness :
    [({ poll_id := 2, user_id := 7, option_ids := [1], received_at := 9 } : AnswerEvent)].foldl
      poll_answer_handler
      (poll_answer_handler
        ({ games := [(100, { group_id := "QG", quiz_id := "QG", started_by := 1,
                             players := [(7, { username := "A", score := 0, correct := 0 })],
                             current_question := 0, current_poll_id := some 2,
                             scores := [] })],
            activePolls := [(2, { chat_id := 100, question_index := 0, correct_option := 1,
                                  start_time := 0, answered_users := [],
                                  extra_points := false, time_limit := 20 })],
            soloPolls := [], soloResults := [], countdownTasks := [] } : BotState)
        ({ poll_id := 2, user_id := 7, option_ids := [1], received_at := 3 } : AnswerEvent))
    = poll_answer_handler
        ({ games := [(100, { group_id := "QG", quiz_id := "QG", started_by := 1,
                             players := [(7, { username := "A", score := 0, correct := 0 })],
                             current_question := 0, current_poll_id := some 2,
                             scores := [] })],
            activePolls := [(2, { chat_id := 100, question_index := 0, correct_option := 1,
                                  start_time := 0, answered_users := [],
                                  extra_points := false, time_limit := 20 })],
            soloPolls := [], soloResults := [], countdownTasks := [] } : BotState)
        ({ poll_id := 2, user_id := 7, option_ids := [1], received_at := 3 } : AnswerEvent) := by
  have h := C2_duplicate_events_group_only_first
    ({ games := [(100, { group_id := "QG", quiz_id := "QG", started_by := 1,
                         players := [(7, { username := "A", score := 0, correct := 0 })],
                         current_question := 0, current_poll_id := some 2,
                         scores := [] })],
        activePolls := [(2, { chat_id := 100, question_index := 0, correct_option := 1,
                              start_time := 0, answered_users := [],
                              extra_points := false, time_limit := 20 })],
        soloPolls := [], soloResults := [], countdownTasks := [] } : BotState)
    ({ poll_id := 2, user_id := 7, option_ids := [1], received_at := 3 } : AnswerEvent)
    [({ poll_id := 2, user_id := 7, option_ids := [1], received_at := 9 } : AnswerEvent)]
    rfl
    (by intro e he
        simp only [List.mem_singleton] at he
        subst he
        exact ⟨rfl, rfl⟩)
  exact h.1

/-- C2 (counterexample) -- a duplicate answer event for a solo poll is not
discarded: the second event re-stores the stashed solo result (here flipping
its `correct` flag), so it does change state, refuting the claim that every
subsequent duplicate for the same (poll_id, user_id) causes no state change. -/
theorem C2_counterexample_solo_duplicate :
    poll_answer_handler
      (poll_answer_handler
        ({ games := [], activePolls := [],
           soloPolls := [(1, { user_id := 7, correct_option := 0, start_time := 0,
                               time_limit := 20, extra_points := true })],
           soloResults := [], countdownTasks := [] } : BotState)
        ({ poll_id := 1, user_id := 7, option_ids := [0], received_at := 1 } : AnswerEvent))
      ({ poll_id := 1, user_id := 7, option_ids := [1], received_at := 2 } : AnswerEvent)
    ≠ poll_answer_handler
        ({ games := [], activePolls := [],
           soloPolls := [(1, { user_id := 7, correct_option := 0, start_time := 0,
                               time_limit := 20, extra_points := true })],
           soloResults := [], countdownTasks := [] } : BotState)
        ({ poll_id := 1, user_id := 7, option_ids := [0], received_at := 1 } : AnswerEvent) := by
  intro h
  have h2 := congrArg (fun st : BotState => (alistLookup st.soloResults 1).map SoloResult.correct) h
  simp [poll_answer_handler, handleSoloAnswer, alistLookup, alistSet, selectedOption] at h2

/-- C4 -- an answer event whose poll id is neither a solo poll nor a group
poll in the registry is discarded silently: the handler returns the state
unchanged (no session, score, registry entry or stored solo result is
created or modified). -/
theorem C4_unknown_poll_no_state_change (s : BotState) (e : AnswerEvent)
    (hsolo : alistLookup s.soloPolls e.poll_id = none)
    (hgroup : alistLookup s.activePolls e.poll_id = none) :
    poll_answer_handler s e = s := by
  unfold poll_answer_handler
  rw [hsolo, hgroup]

theorem C4_unknown_poll_no_state_change_witness :
    poll_answer_handler
      ({ games := [(100, { group_id := "QG", quiz_id := "QG", started_by := 1,
                           players := [], current_question := 0,
                           current_poll_id := none, scores := [] })],
         activePolls := [(2, { chat_id := 100, question_index := 0, correct_option := 1,
                               start_time := 0, answered_users := [],
                               extra_points := true, time_limit := 20 })],
         soloPolls := [], soloResults := [], countdownTasks := [] } : BotState)
      ({ poll_id := 3, user_id := 7, option_ids := [0], received_at := 5 } : AnswerEvent)
    = ({ games := [(100, { group_id := "QG", quiz_id := "QG", started_by := 1,
                           players := [], current_question := 0,
                           current_poll_id := none, scores := [] })],
         activePolls := [(2, { chat_id := 100, question_index := 0, correct_option := 1,
                               start_time := 0, answered_users := [],
                               extra_points := true, time_limit := 20 })],
         soloPolls := [], soloResults := [], countdownTasks := [] } : BotState) :=
  C4_unknown_poll_no_state_change _ _ rfl rfl

/-! ## Session Manager: /startquiz (src/handlers/group.py, startquiz_command) -/

inductive StartResult where
  | notGroup | notAdmin | noArgs | alreadyRunning | quizNotFound | noQuestions | started
deriving DecidableEq, Repr

/-- The request context of a /startquiz command: chat, issuing user, chat
type, the admin check (false also covers the `get_member` exception path),
and `context.args`. -/
structure StartRequest where
  chat_id : ℕ
  user_id : ℕ
  isPrivate : Bool
  isAdmin : Bool
  args : List String
deriving DecidableEq, Repr

/-- The quiz-content collaborator: `get_quiz_group` (existence) and
`get_group_questions` (count) for a given group id. -/
structure Content where
  hasQuizGroup : String → Bool
  numQuestions : String → ℕ

/-- `startquiz_command`: guard chain (group chat, admin, args, no active
game, quiz group exists, has questions), then `create_active_game`, cancel
any stale countdown task and register the new one. -/
def startquiz_command (s : BotState) (c : Content) (r : StartRequest) :
    BotState × StartResult :=
  if r.isPrivate then (s, .notGroup)
  else if r.isAdmin = false then (s, .notAdmin)
  else
    match r.args with
    | [] => (s, .noArgs)
    | group_id :: _ =>
      match get_active_game s r.chat_id with
      | some _ => (s, .alreadyRunning)
      | none =>
        if c.hasQuizGroup group_id = false then (s, .quizNotFound)
        else if c.numQuestions group_id = 0 then (s, .noQuestions)
        else
          let s2 := create_active_game s r.chat_id group_id group_id r.user_id
          let s3 : BotState := { s2 with countdownTasks :=
            if r.chat_id ∈ s2.countdownTasks then s2.countdownTasks
            else r.chat_id :: s2.countdownTasks }
          (s3, .started)

/-- C3 -- while a session (including a pending lobby, whose game document
already exists) is active for a chat, any further /startquiz leaves the
whole state unchanged (no new session, existing players/scores/question/
countdown untouched), and one that passes the group/admin/args guards is
rejected with the AlreadyRunning reply. -/
theorem C3_second_start_rejected (s : BotState) (c : Content) (r : StartRequest)
    (g : Game) (h : get_active_game s r.chat_id = some g) :
    (startquiz_command s c r).1 = s ∧
    (r.isPrivate = false → r.isAdmin = true → r.args ≠ [] →
      (startquiz_command s c r).2 = StartResult.alreadyRunning) := by
  unfold startquiz_command
  cases hp : r.isPrivate with
  | true => simp
  | false =>
    cases ha : r.isAdmin with
    | false => simp
    | true =>
      rcases hargs : r.args with _ | ⟨gid, rest⟩
      · simp
      · simp [h]

theorem C3_second_start_rejected_witness :
    (startquiz_command
      ({ games := [(100, { group_id := "QG", quiz_id := "QG", started_by := 1,
                           players := [(7, { username := "A", score := 0, correct := 0 })],
                           current_question := 0, current_poll_id := none,
                           scores := [] })],
         activePolls := [], soloPolls := [], soloResults := [],
         countdownTasks := [100] } : BotState)
      ({ hasQuizGroup := fun _ => true, numQuestions := fun _ => 3 } : Content)
      ({ chat_id := 100, user_id := 2, isPrivate := false, isAdmin := true,
         args := ["QG2"] } : StartRequest)).2 = StartResult.alreadyRunning := by
  have h := C3_second_start_rejected
    ({ games := [(100, { group_id := "QG", quiz_id := "QG", started_by := 1,
                         players := [(7, { username := "A", score := 0, correct := 0 })],
                         current_question := 0, current_poll_id := none,
                         scores := [] })],
       activePolls := [], soloPolls := [], soloResults := [],
       countdownTasks := [100] } : BotState)
    ({ hasQuizGroup := fun _ => true, numQuestions := fun _ => 3 } : Content)
    ({ chat_id := 100, user_id := 2, isPrivate := false, isAdmin := true,
       args := ["QG2"] } : StartRequest)
    ({ group_id := "QG", quiz_id := "QG", started_by := 1,
       players := [(7, { username := "A", score := 0, correct := 0 })],
       current_question := 0, current_poll_id := none, scores := [] })
    rfl
  exact h.2 rfl rfl (by simp)

/-! ## Stopping a session (src/handlers/group.py, stop_command) -/

inductive StopResult where
  | notGroup | cancelled | noQuiz | notAllowed | stopped
deriving DecidableEq, Repr

/-- The request context of a /stop command; `isAdmin` is false also on the
`get_member` exception path. -/
structure StopRequest where
  chat_id : ℕ
  user_id : ℕ
  isPrivate : Bool
  isAdmin : Bool
deriving DecidableEq, Repr

/-- `stop_command`: in a group chat it first checks `countdown_tasks`; a
live countdown is cancelled, its entry removed and any game deleted WITHOUT
consulting `is_admin` or the starter.  Only the no-countdown path enforces
"admin or starter". -/
def stop_command (s : BotState) (r : StopRequest) : BotState × StopResult :=
  if r.isPrivate then (s, .notGroup)
  else
    let game := get_active_game s r.chat_id
    if r.chat_id ∈ s.countdownTasks then
      let s2 : BotState := { s with countdownTasks := s.countdownTasks.erase r.chat_id }
      let s3 := match game with
        | some _ => delete_active_game s2 r.chat_id
        | none => s2
      (s3, .cancelled)
    else
      match game with
      | none => (s, .noQuiz)
      | some g =>
        if r.isAdmin = false ∧ g.started_by ≠ r.user_id then (s, .notAllowed)
        else (delete_active_game s r.chat_id, .stopped)

/-- C5 -- the claim is broken by the code during the lobby countdown: a
/stop from user 2, who is neither an administrator nor the starter (the
session was started by user 1), is not rejected; it cancels the countdown
task and deletes the session.  This evaluates `stop_command` at that
failing input. -/
theorem C5_stop_bug_nonadmin_cancels_lobby :
    (({ chat_id := 100, user_id := 2, isPrivate := false,
        isAdmin := false } : StopRequest).isAdmin = false ∧
     ({ group_id := "QG", quiz_id := "QG", started_by := 1, players := [],
        current_question := 0, current_poll_id := none,
        scores := [] } : Game).started_by ≠ 2) ∧
    stop_command
      ({ games := [(100, { group_id := "QG", quiz_id := "QG", started_by := 1,
                           players := [], current_question := 0,
                           current_poll_id := none, scores := [] })],
         activePolls := [], soloPolls := [], soloResults := [],
         countdownTasks := [100] } : BotState)
      ({ chat_id := 100, user_id := 2, isPrivate := false,
         isAdmin := false } : StopRequest)
    = (({ games := [], activePolls := [], soloPolls := [], soloResults := [],
          countdownTasks := [] } : BotState), StopResult.cancelled) := by
  exact ⟨⟨rfl, by decide⟩, rfl⟩

/-! ## Joining (src/handlers/group.py, join_quiz_callback) -/

/-- `join_quiz_callback`: `create_user` touches only the `users` collection
(outside this state), then `add_player_to_game`; the button reply reports
its boolean result. -/
def join_quiz_callback (s : BotState) (chat_id user_id : ℕ)
    (username : String) : BotState × Bool :=
  add_player_to_game s chat_id user_id username

/-- C6 (counterexample) -- a join arriving after the session has entered
Running (countdown gone, `current_question = 2`) is NOT rejected: the game
document still exists, so the `$set` matches, the callback reports success
and the user lands in the participant roster. -/
theorem C6_counterexample_join_while_running :
    ((join_quiz_callback
        ({ games := [(100, { group_id := "QG", quiz_id := "QG", started_by := 1,
                             players := [(7, { username := "A", score := 0, correct := 0 })],
                             current_question := 2, current_poll_id := some 5,
                             scores := [(7, 10)] })],
           activePolls := [], soloPolls := [], soloResults := [],
           countdownTasks := [] } : BotState) 100 9 "Bob").2 = true) ∧
    ((get_active_game (join_quiz_callback
        ({ games := [(100, { group_id := "QG", quiz_id := "QG", started_by := 1,
                             players := [(7, { username := "A", score := 0, correct := 0 })],
                             current_question := 2, current_poll_id := some 5,
                             scores := [(7, 10)] })],
           activePolls := [], soloPolls := [], soloResults := [],
           countdownTasks := [] } : BotState) 100 9 "Bob").1 100).map
        (fun g => alistLookup g.players 9))
      = some (some ({ username := "Bob", score := 0, correct := 0 } : Player)) := by
  exact ⟨rfl, rfl⟩

/-- C6 (amended) -- a join is accepted and adds the user to the roster
whenever an active game document exists for the chat — in the lobby AND
after Running begins — unless the user already holds an identical player
record; it is rejected (with no state change) exactly when no active game
exists. -/
theorem C6_join_accepted_while_game_exists
    (s : BotState) (chat_id user_id : ℕ) (username : String) (g : Game)
    (hg : get_active_game s chat_id = some g)
    (hnew : alistLookup g.players user_id
      ≠ some ({ username := username, score := 0, correct := 0 } : Player)) :
    (join_quiz_callback s chat_id user_id username).2 = true ∧
    get_active_game (join_quiz_callback s chat_id user_id username).1 chat_id
      = some ({ g with players := alistSet g.players user_id
                                    ({ username := username, score := 0, correct := 0 } : Player) }) ∧
    (∀ s' : BotState, get_active_game s' chat_id = none →
        join_quiz_callback s' chat_id user_id username = (s', false)) := by
  have hdef : join_quiz_callback s chat_id user_id username
      = ({ s with games := alistSet s.games chat_id
                             ({ g with players := alistSet g.players user_id
                                                     ({ username := username, score := 0, correct := 0 } : Player) }) },
         true) := by
    unfold join_quiz_callback add_player_to_game
    rw [show alistLookup s.games chat_id = some g from hg]
    dsimp only
    rw [if_neg hnew]
  refine ⟨by rw [hdef], ?_, ?_⟩
  · rw [hdef]
    exact alistLookup_set_self _ _ _
  · intro s' hnone
    unfold join_quiz_callback add_player_to_game
    rw [show alistLookup s'.games chat_id = none from hnone]

theorem C6_join_accepted_while_game_exists_witness :
    (join_quiz_callback
      ({ games := [(100, { group_id := "QG", quiz_id := "QG", started_by := 1,
                           players := [(7, { username := "A", score := 0, correct := 0 })],
                           current_question := 3, current_poll_id := none,
                           scores := [] })],
         activePolls := [], soloPolls := [], soloResults := [],
         countdownTasks := [] } : BotState) 100 8 "Eve").2 = true := by
  have h := C6_join_accepted_while_game_exists
    ({ games := [(100, { group_id := "QG", quiz_id := "QG", started_by := 1,
                         players := [(7, { username := "A", score := 0, correct := 0 })],
                         current_question := 3, current_poll_id := none,
                         scores := [] })],
       activePolls := [], soloPolls := [], soloResults := [],
       countdownTasks := [] } : BotState) 100 8 "Eve"
    ({ group_id := "QG", quiz_id := "QG", started_by := 1,
       players := [(7, { username := "A", score := 0, correct := 0 })],
       current_question := 3, current_poll_id := none, scores := [] })
    rfl (by simp [alistLookup])
  exact h.1

/-! ## Final results (src/handlers/group.py, show_final_results;
src/database/models.py, save_score) -/

/-- `sorted(scores.items(), key=lambda x: x[1], reverse=True)`: a stable
descending sort of the scores dict items by score. -/
def sortScoresDesc (scores : List (ℕ × ℤ)) : List (ℕ × ℤ) :=
  scores.mergeSort fun a b => decide (b.2 ≤ a.2)

/-- One `leaderboard` document written by `save_score`. -/
structure LeaderboardRow where
  quiz_id : String
  group_id : String
  user_id : ℕ
  username : String
  score : ℤ
  correct_answers : ℤ
  total_questions : ℕ
  chat_id : ℕ
deriving DecidableEq, Repr

/-- `show_final_results`: with no game, nothing happens; with an empty
`scores` dict no row is written; otherwise `save_score` is called exactly
for the entries of `sorted_scores[:10]` — the loop iterates over the
`scores` dict, not the `players` roster — and the game is then deleted.
Returns the new state and the persisted rows in order. -/
def show_final_results (s : BotState) (chat_id : ℕ) (group_id : String)
    (total_questions : ℕ) : BotState × List LeaderboardRow :=
  match get_active_game s chat_id with
  | none => (s, [])
  | some g =>
      let rows :=
        if g.scores = [] then []
        else
          ((sortScoresDesc g.scores).take 10).map fun entry =>
            { quiz_id := group_id, group_id := group_id,
              user_id := entry.1,
              username := ((alistLookup g.players entry.1).map Player.username).getD "Unknown",
              score := entry.2,
              correct_answers := ((alistLookup g.players entry.1).map Player.correct).getD 0,
              total_questions := total_questions,
              chat_id := chat_id }
      (delete_active_game s chat_id, rows)

/-- C7 (counterexample) -- at session completion with two enrolled
participants, of whom only user 1 ever scored (user 2's cumulative score
is zero, so the `scores` dict has no entry for them), exactly ONE
leaderboard row is persisted, not one per participant. -/
theorem C7_counterexample_zero_score_participant_gets_no_row :
    (({ group_id := "QG", quiz_id := "QG", started_by := 1,
        players := [(1, { username := "A", score := 0, correct := 2 }),
                    (2, { username := "B", score := 0, correct := 0 })],
        current_question := 2, current_poll_id := none,
        scores := [(1, 15)] } : Game).players.length = 2) ∧
    ((show_final_results
        ({ games := [(100, { group_id := "QG", quiz_id := "QG", started_by := 1,
                             players := [(1, { username := "A", score := 0, correct := 2 }),
                                         (2, { username := "B", score := 0, correct := 0 })],
                             current_question := 2, current_poll_id := none,
                             scores := [(1, 15)] })],
           activePolls := [], soloPolls := [], soloResults := [],
           countdownTasks := [] } : BotState) 100 "QG" 3).2.map
        (fun row => row.user_id)) = [1] := by
  have hs : sortScoresDesc [((1 : ℕ), (15 : ℤ))] = [(1, 15)] :=
    List.perm_singleton.mp (List.mergeSort_perm _ _)
  refine ⟨rfl, ?_⟩
  have h1 : (show_final_results
      ({ games := [(100, { group_id := "QG", quiz_id := "QG", started_by := 1,
                           players := [(1, { username := "A", score := 0, correct := 2 }),
                                       (2, { username := "B", score := 0, correct := 0 })],
                           current_question := 2, current_poll_id := none,
                           scores := [(1, 15)] })],
         activePolls := [], soloPolls := [], soloResults := [],
         countdownTasks := [] } : BotState) 100 "QG" 3).2
      = ((sortScoresDesc [((1 : ℕ), (15 : ℤ))]).take 10).map (fun entry =>
          ({ quiz_id := "QG", group_id := "QG", user_id := entry.1,
             username := ((alistLookup [(1, ({ username := "A", score := 0, correct := 2 } : Player)),
                                        (2, ({ username := "B", score := 0, correct := 0 } : Player))] entry.1).map
                            Player.username).getD "Unknown",
             score := entry.2,
             correct_answers := ((alistLookup [(1, ({ username := "A", score := 0, correct := 2 } : Player)),
                                               (2, ({ username := "B", score := 0, correct := 0 } : Player))] entry.1).map
                                   Player.correct).getD 0,
             total_questions := 3, chat_id := 100 } : LeaderboardRow)) := rfl
  rw [h1, hs]
  rfl

theorem sortScoresDesc_pairwise (scores : List (ℕ × ℤ)) :
    (sortScoresDesc scores).Pairwise (fun a b => b.2 ≤ a.2) := by
  have h : (sortScoresDesc scores).Pairwise
      (fun a b : ℕ × ℤ => decide (b.2 ≤ a.2) = true) := by
    apply List.sorted_mergeSort
    · intro a b c hab hbc
      simp only [decide_eq_true_eq] at hab hbc ⊢
      exact le_trans hbc hab
    · intro a b
      rcases le_total b.2 a.2 with h | h <;> simp [h]
  exact h.imp fun hx => by simpa using hx

/-- C7 (amended) -- when the question loop completes, the (user, score)
pairs of the rows persisted before the session is deleted are EXACTLY the
first 10 entries of the session's `scores` dict in stable descending score
order: their number is `min |scores| 10` (not the participant count), they
are pairwise descending, they are drawn without duplication from `scores`,
every omitted `scores` entry — i.e. every scorer beyond rank 10 — scores
no more than every persisted one, a participant with no `scores` entry (in
particular anyone whose cumulative score stayed zero) gets no row, and the
session is deleted afterwards. -/
theorem C7_rows_are_top10_scorers (s : BotState) (chat_id : ℕ)
    (group_id : String) (tq : ℕ) (g : Game)
    (hg : get_active_game s chat_id = some g)
    (hnd : (s.games.map Prod.fst).Nodup) :
    (show_final_results s chat_id group_id tq).2.length = min g.scores.length 10 ∧
    (show_final_results s chat_id group_id tq).2.map (fun row => (row.user_id, row.score))
      = (sortScoresDesc g.scores).take 10 ∧
    ((show_final_results s chat_id group_id tq).2.map
        (fun row => (row.user_id, row.score))).Pairwise (fun a b => b.2 ≤ a.2) ∧
    ((show_final_results s chat_id group_id tq).2.map
        (fun row => (row.user_id, row.score))).Subperm g.scores ∧
    (∀ p ∈ g.scores,
        p ∉ (show_final_results s chat_id group_id tq).2.map
              (fun row => (row.user_id, row.score)) →
        ∀ q ∈ (show_final_results s chat_id group_id tq).2.map
              (fun row => (row.user_id, row.score)), p.2 ≤ q.2) ∧
    (∀ u : ℕ, (∀ v : ℤ, (u, v) ∉ g.scores) →
        ∀ row ∈ (show_final_results s chat_id group_id tq).2, row.user_id ≠ u) ∧
    get_active_game (show_final_results s chat_id group_id tq).1 chat_id = none := by
  have hperm : (sortScoresDesc g.scores).Perm g.scores :=
    List.mergeSort_perm g.scores _
  have hfst : (show_final_results s chat_id group_id tq).1
      = delete_active_game s chat_id := by
    unfold show_final_results
    rw [hg]
  have hpairs : (show_final_results s chat_id group_id tq).2.map
      (fun row => (row.user_id, row.score)) = (sortScoresDesc g.scores).take 10 := by
    by_cases hsc : g.scores = []
    · have h0 : sortScoresDesc g.scores = [] :=
        List.length_eq_zero.mp (by rw [hperm.length_eq, hsc]; rfl)
      unfold show_final_results
      rw [hg]
      dsimp only
      rw [if_pos hsc, h0]
      rfl
    · unfold show_final_results
      rw [hg]
      dsimp only
      rw [if_neg hsc, List.map_map]
      exact List.map_id'' (fun e => rfl) _
  have hmem : ∀ row ∈ (show_final_results s chat_id group_id tq).2,
      (row.user_id, row.score) ∈ g.scores := by
    intro row hrow
    have hm : (row.user_id, row.score)
        ∈ (show_final_results s chat_id group_id tq).2.map
            (fun row => (row.user_id, row.score)) :=
      List.mem_map_of_mem _ hrow
    rw [hpairs] at hm
    exact hperm.mem_iff.mp ((List.take_sublist 10 _).mem hm)
  refine ⟨?_, hpairs, ?_, ?_, ?_, ?_, ?_⟩
  · have hlen := congrArg List.length hpairs
    rw [List.length_map] at hlen
    rw [hlen, List.length_take, hperm.length_eq, Nat.min_comm]
  · rw [hpairs]
    exact (sortScoresDesc_pairwise g.scores).sublist (List.take_sublist 10 _)
  · rw [hpairs]
    exact ((List.take_sublist 10 _).subperm).trans hperm.subperm
  · intro p hp hnp q hq
    rw [hpairs] at hnp hq
    have hsorted := sortScoresDesc_pairwise g.scores
    rw [← List.take_append_drop 10 (sortScoresDesc g.scores),
        List.pairwise_append] at hsorted
    have hpmem : p ∈ sortScoresDesc g.scores := hperm.mem_iff.mpr hp
    rw [← List.take_append_drop 10 (sortScoresDesc g.scores),
        List.mem_append] at hpmem
    rcases hpmem with h1 | h2
    · exact absurd h1 hnp
    · exact hsorted.2.2 q hq p h2
  · intro u hu row hrow hrowu
    exact hu row.score (hrowu ▸ hmem row hrow)
  · rw [hfst]
    unfold delete_active_game get_active_game
    exact alistLookup_erase_self s.games chat_id hnd

theorem C7_rows_are_top10_scorers_witness :
    (show_final_results
      ({ games := [(100, { group_id := "QG", quiz_id := "QG", started_by := 1,
                           players := [(1, { username := "A", score := 0, correct := 2 })],
                           current_question := 2, current_poll_id := none,
                           scores := [(1, 15), (2, 5)] })],
         activePolls := [], soloPolls := [], soloResults := [],
         countdownTasks := [] } : BotState) 100 "QG" 3).2.length = min 2 10 := by
  have h := C7_rows_are_top10_scorers
    ({ games := [(100, { group_id := "QG", quiz_id := "QG", started_by := 1,
                         players := [(1, { username := "A", score := 0, correct := 2 })],
                         current_question := 2, current_poll_id := none,
                         scores := [(1, 15), (2, 5)] })],
       activePolls := [], soloPolls := [], soloResults := [],
       countdownTasks := [] } : BotState) 100 "QG" 3
    ({ group_id := "QG", quiz_id := "QG", started_by := 1,
       players := [(1, { username := "A", score := 0, correct := 2 })],
       current_question := 2, current_poll_id := none,
       scores := [(1, 15), (2, 5)] })
    rfl (by decide)
  exact h.1

/-! ## The question loop (src/handlers/group.py, run_quiz) -/

/-- The per-iteration environment of one `run_quiz` loop pass: whether the
game still exists at the top of the iteration (`get_active_game`), whether
`send_poll` succeeds (the try/except block), and — for the interim
leaderboard block, which sits OUTSIDE the try — whether the game still
exists, whether its scores dict is nonempty, and whether the
`send_message` broadcasting the standings succeeds. -/
structure QStep where
  alive : Bool
  publishOk : Bool
  interimAlive : Bool
  scoresNonempty : Bool
  interimSendOk : Bool
deriving DecidableEq, Repr

inductive RunOutcome where
  | abortedClean | finished
deriving DecidableEq, Repr

/-- Control flow of `run_quiz`'s loop from question index `i` on:
a missing game returns cleanly; a publish failure hits `continue`,
skipping the rest of the iteration (interim block included); an exception
in the interim `send_message` is NOT caught and propagates (`.error i`);
an exhausted list reaches `show_final_results` (`.finished`). -/
def run_quiz_loop (total : ℕ) : List QStep → ℕ → Except ℕ RunOutcome
  | [], _ => .ok .finished
  | step :: rest, i =>
    if step.alive = false then .ok .abortedClean
    else if step.publishOk = false then run_quiz_loop total rest (i+1)
    else if (i+1) % 5 = 0 ∧ i+1 < total then
      if step.interimAlive = true ∧ step.scoresNonempty = true then
        if step.interimSendOk then run_quiz_loop total rest (i+1)
        else .error i
      else run_quiz_loop total rest (i+1)
    else run_quiz_loop total rest (i+1)

/-- `run_quiz` over the whole question list (`total_questions` is fixed at
entry). -/
def run_quiz (steps : List QStep) : Except ℕ RunOutcome :=
  run_quiz_loop steps.length steps 0

/-- C8 (counterexample) -- not every failure inside a loop iteration is
caught: in a 6-question run where the interim-standings broadcast after
question 5 raises, the exception propagates out of the loop (question
index 4), the remaining question is never played and final results are
never published — refuting "any pattern of per-question failures still
reaches completion". -/
theorem C8_counterexample_interim_send_failure_aborts :
    run_quiz
      [{ alive := true, publishOk := true, interimAlive := true,
         scoresNonempty := true, interimSendOk := true },
       { alive := true, publishOk := true, interimAlive := true,
         scoresNonempty := true, interimSendOk := true },
       { alive := true, publishOk := true, interimAlive := true,
         scoresNonempty := true, interimSendOk := true },
       { alive := true, publishOk := true, interimAlive := true,
         scoresNonempty := true, interimSendOk := true },
       { alive := true, publishOk := true, interimAlive := true,
         scoresNonempty := true, interimSendOk := false },
       { alive := true, publishOk := true, interimAlive := true,
         scoresNonempty := true, interimSendOk := true }]
      = Except.error 4 := by
  rfl

theorem run_quiz_loop_ok_of_send_ok (total : ℕ) :
    ∀ (steps : List QStep) (i : ℕ),
      (∀ st ∈ steps, st.alive = true) →
      (∀ st ∈ steps, st.interimSendOk = true) →
      run_quiz_loop total steps i = .ok .finished := by
  intro steps
  induction steps with
  | nil => intro i _ _; rfl
  | cons step rest ih =>
    intro i halive hsend
    have ha : step.alive = true := halive step (by simp)
    have hs : step.interimSendOk = true := hsend step (by simp)
    have halive' : ∀ st ∈ rest, st.alive = true :=
      fun st hm => halive st (List.mem_cons_of_mem _ hm)
    have hsend' : ∀ st ∈ rest, st.interimSendOk = true :=
      fun st hm => hsend st (List.mem_cons_of_mem _ hm)
    unfold run_quiz_loop
    rw [ha, hs]
    simp only [Bool.true_eq_false, if_false, if_true]
    split
    · exact ih (i+1) halive' hsend'
    · split
      · split
        · exact ih (i+1) halive' hsend'
        · exact ih (i+1) halive' hsend'
      · exact ih (i+1) halive' hsend'

/-- C8 (amended) -- only failures inside the poll-publish try-block are
caught and skip just that question; provided the session is never deleted
externally and no interim-standings broadcast raises, the loop survives
ANY pattern of per-question publish failures and always reaches completion
and final-results publication.  (An interim broadcast failure instead
propagates, as the counterexample shows.) -/
theorem C8_publish_failures_only_skip_question (steps : List QStep)
    (halive : ∀ st ∈ steps, st.alive = true)
    (hsend : ∀ st ∈ steps, st.interimSendOk = true) :
    run_quiz steps = .ok RunOutcome.finished :=
  run_quiz_loop_ok_of_send_ok steps.length steps 0 halive hsend

theorem C8_publish_failures_only_skip_question_witness :
    run_quiz
      [{ alive := true, publishOk := false, interimAlive := true,
         scoresNonempty := true, interimSendOk := true },
       { alive := true, publishOk := true, interimAlive := true,
         scoresNonempty := true, interimSendOk := true },
       { alive := true, publishOk := false, interimAlive := true,
         scoresNonempty := true, interimSendOk := true }]
      = .ok RunOutcome.finished :=
  C8_publish_failures_only_skip_question
    [{ alive := true, publishOk := false, interimAlive := true,
       scoresNonempty := true, interimSendOk := true },
     { alive := true, publishOk := true, interimAlive := true,
       scoresNonempty := true, interimSendOk := true },
     { alive := true, publishOk := false, interimAlive := true,
       scoresNonempty := true, interimSendOk := true }]
    (by decide) (by decide)

/-! ## Interim standings (src/handlers/group.py, run_quiz, every-5 block) -/

/-- The interim-standings decision and payload for question index `i`
(0-based) of `total`: the code broadcasts when `(i + 1) % 5 == 0 and
i + 1 < total_questions`, the game still exists and its `scores` dict is
nonempty; the payload is `sorted_scores[:5]`. -/
def interim_standings (i total : ℕ) (game : Option Game) :
    Option (List (ℕ × ℤ)) :=
  if (i+1) % 5 = 0 ∧ i+1 < total then
    match game with
    | none => none
    | some g => if g.scores = [] then none else some ((sortScoresDesc g.scores).take 5)
  else none

/-- `medals[rank-1] if rank <= 3 else f"{rank}."` from the interim block. -/
def medalFor (rank : ℕ) : String :=
  if rank ≤ 3 then (["🥇", "🥈", "🥉"].getD (rank - 1) "")
  else toString rank ++ "."

/-- C9 (counterexample) -- with N = 6 questions, after question 5 only one
question remains (fewer than K = 5), yet the code does broadcast interim
standings: its guard is `i + 1 < total_questions`, not "K ≤ remaining",
refuting "only when K or more questions remain after that point". -/
theorem C9_counterexample_broadcast_with_one_remaining :
    ((interim_standings 4 6 (some
        ({ group_id := "QG", quiz_id := "QG", started_by := 1,
           players := [(1, { username := "A", score := 0, correct := 1 })],
           current_question := 4, current_poll_id := none,
           scores := [(1, 8)] } : Game))).isSome = true) ∧ 6 - (4 + 1) < 5 := by
  exact ⟨rfl, by decide⟩

/-- C9 (amended) -- interim standings are broadcast exactly after every
5th question whenever AT LEAST ONE question remains (and the game exists
with a nonempty scores dict) — not only when 5 or more remain; each
broadcast lists the top `min |scores| 5` participants by cumulative score
in descending order, all drawn from the scores dict, with medal styling
🥇🥈🥉 for ranks 1-3 and "r." beyond. -/
theorem C9_interim_every5_with_any_remaining (i total : ℕ) (g : Game) :
    ((interim_standings i total (some g)).isSome ↔
      ((i+1) % 5 = 0 ∧ i+1 < total ∧ g.scores ≠ [])) ∧
    (∀ l, interim_standings i total (some g) = some l →
        l.length = min g.scores.length 5 ∧
        (∀ p ∈ l, p ∈ g.scores) ∧
        l.Pairwise (fun a b => b.2 ≤ a.2)) ∧
    (medalFor 1 = "🥇" ∧ medalFor 2 = "🥈" ∧ medalFor 3 = "🥉" ∧
     ∀ r : ℕ, 4 ≤ r → medalFor r = toString r ++ ".") := by
  have hperm : (sortScoresDesc g.scores).Perm g.scores :=
    List.mergeSort_perm g.scores _
  refine ⟨?_, ?_, rfl, rfl, rfl, ?_⟩
  · unfold interim_standings
    split
    · rename_i hcond
      dsimp only
      split
      · rename_i hsc
        simp [hcond, hsc]
      · rename_i hsc
        simp [hcond, hsc]
    · rename_i hcond
      simp only [Option.isSome_none, Bool.false_eq_true, false_iff]
      intro hc
      exact hcond ⟨hc.1, hc.2.1⟩
  · intro l hl
    unfold interim_standings at hl
    split at hl
    · dsimp only at hl
      split at hl
      · cases hl
      · injection hl with hl
        subst hl
        refine ⟨?_, ?_, ?_⟩
        · rw [List.length_take, hperm.length_eq, Nat.min_comm]
        · intro p hp
          exact hperm.mem_iff.mp ((List.take_sublist 5 _).mem hp)
        · have hsorted : (sortScoresDesc g.scores).Pairwise
              (fun a b : ℕ × ℤ => decide (b.2 ≤ a.2) = true) := by
            apply List.sorted_mergeSort
            · intro a b c hab hbc
              simp only [decide_eq_true_eq] at hab hbc ⊢
              exact le_trans hbc hab
            · intro a b
              rcases le_total b.2 a.2 with h | h <;> simp [h]
          have := hsorted.sublist (List.take_sublist 5 _)
          exact this.imp fun h => by simpa using h
    · cases hl
  · intro r hr
    unfold medalFor
    rw [if_neg (by omega)]

theorem C9_interim_every5_with_any_remaining_witness :
    (interim_standings 4 10 (some
      ({ group_id := "QG", quiz_id := "QG", started_by := 1,
         players := [(1, { username := "A", score := 0, correct := 1 })],
         current_question := 4, current_poll_id := none,
         scores := [(1, 8)] } : Game))).isSome = true :=
  (C9_interim_every5_with_any_remaining 4 10
    ({ group_id := "QG", quiz_id := "QG", started_by := 1,
       players := [(1, { username := "A", score := 0, correct := 1 })],
       current_question := 4, current_poll_id := none,
       scores := [(1, 8)] })).1.mpr (by simp)

end QuizPlay
